import Mathlib

/-!
Verification development for the Aptix API agent-interaction pipeline.

The embedding models the two route handlers of the Express server
(`GET /api/agent/:name` and `POST /api/agent/:name/interact`), the Joi
validation schema `interactSchema`, the system-prompt template, the
parameters passed to the completion provider, and the best-effort
analytics write.  External collaborators (the Firestore document store,
the OpenAI client, the clock) are passed in explicitly: the store as an
association list, the single provider-call outcome and the
analytics-write outcome as parameters, and the ISO timestamp produced by
`new Date().toISOString()` as a string argument.  Each handler returns
the HTTP response together with a trace of the side effects it performed
(document-store reads, provider calls, attempted and successful
analytics writes).
-/

namespace AptixApi

/-- JSON scalar values, enough to express request bodies sent to the
interact endpoint (`express.json()` parses the body into an object whose
values we model per key). -/
inductive JsonVal where
  | str (s : String)
  | num (n : Int)
  | bool (b : Bool)
  | null
deriving DecidableEq

/-- A parsed JSON object body: an association list of keys to values. -/
abbrev ReqBody := List (String × JsonVal)

/-- Key lookup in a parsed JSON object. -/
def lookupKey (body : ReqBody) (k : String) : Option JsonVal :=
  (body.find? (fun p => p.1 == k)).map Prod.snd

/-- Embedding of `interactSchema.validate(req.body)` where
`interactSchema = Joi.object({ message: Joi.string().required().min(1).max(1000) })`.
A Joi object schema rejects keys not in the schema (default
`allowUnknown: false`); `Joi.string().required().min(1).max(1000)`
rejects a missing field, a non-string value, an empty string and a
string longer than 1000 characters.  Returns the validated message or
the first violated constraint's error message. -/
def interactSchemaValidate (body : ReqBody) : Except String String :=
  match lookupKey body "message" with
  | none => .error "\x22message\x22 is required"
  | some (.str s) =>
      if s.length = 0 then .error "\x22message\x22 is not allowed to be empty"
      else if s.length > 1000 then
        .error "\x22message\x22 length must be less than or equal to 1000 characters long"
      else
        match body.find? (fun p => !(p.1 == "message")) with
        | some p => .error ("\x22" ++ p.1 ++ "\x22 is not allowed")
        | none => .ok s
  | some _ => .error "\x22message\x22 must be a string"

/-- An agent document as stored in the `agents` collection:
`personality` and `description` are the fields the prompt reads
(`none` models a field absent from the document); `extra` carries the
remaining metadata fields, which are opaque pass-through. -/
structure AgentDoc where
  personality : Option String
  description : Option String
  extra : List (String × JsonVal)
deriving DecidableEq

/-- The agents collection, keyed by document id (the agent name).
`db.collection('agents').doc(name).get()` is a point lookup. -/
def getAgent (store : List (String × AgentDoc)) (name : String) :
    Option AgentDoc :=
  (store.find? (fun p => p.1 == name)).map Prod.snd

/-- JavaScript `x || d` on an optional string field: an absent field and
the empty string are both falsy and select the default. -/
def jsOrString : Option String → String → String
  | none, d => d
  | some s, d => if s = "" then d else s

/-- The system-prompt template literal built in the interact handler:
`` `You are ${name}, a helpful AI agent with the following personality:
${agentDetails.personality || 'neutral and general.'}
${agentDetails.description || ''} ...` ``, with the fixed
stay-in-character / blockchain-context / concision instructions. -/
def systemPrompt (name : String) (agentDetails : AgentDoc) : String :=
  "You are " ++ name ++ ", a helpful AI agent with the following personality: "
    ++ jsOrString agentDetails.personality "neutral and general."
    ++ " " ++ jsOrString agentDetails.description ""
    ++ "\n    \n    When responding, always maintain your character and consider your knowledge about the Solana blockchain environment.\n    Your answers should be concise, helpful, and accurate. If you don't know something, admit it rather than making up information.\n    "

/-- The environment variables the server reads (each `none` when the
variable is unset). -/
structure Config where
  OPENAI_MODEL : Option String
  OPENAI_API_KEY : Option String
  PORT : Option String
  CORS_ORIGIN : Option String
  LOG_LEVEL : Option String
  NODE_ENV : Option String
deriving DecidableEq

/-- The argument object of the single `openai.chat.completions.create`
call made per interaction. -/
structure CompletionRequest where
  model : String
  systemPrompt : String
  userMessage : String
  maxTokens : Nat
  temperature : ℚ
deriving DecidableEq

/-- The parameters the interact handler passes to
`openai.chat.completions.create`: `model: process.env.OPENAI_MODEL ||
'gpt-3.5-turbo'`, `max_tokens: 500`, `temperature: 0.7`. -/
def completionParams (cfg : Config) (sysPrompt userMessage : String) :
    CompletionRequest :=
  { model := jsOrString cfg.OPENAI_MODEL "gpt-3.5-turbo"
    systemPrompt := sysPrompt
    userMessage := userMessage
    maxTokens := 500
    temperature := (7 : ℚ) / 10 }

/-- Outcome of the provider call: `ok content` models a resolved
response whose `choices[0]?.message?.content` is `content` (`none` when
the optional chain yields no string); `fault` models a rejected
promise. -/
inductive ProviderResult where
  | ok (content : Option String)
  | fault (message : String)
deriving DecidableEq

/-- `openAIResponse.choices[0]?.message?.content || "I'm sorry, ..."`:
the fixed fallback replaces an absent or empty completion. -/
def agentReplyOf (content : Option String) : String :=
  jsOrString content "I'm sorry, I couldn't process your request at this time."

/-- A record appended to the `analytics` collection (the server-assigned
timestamp field is attached by the store, not by this core). -/
structure AnalyticsRecord where
  agent : String
  messageLength : Nat
  responseLength : Nat
  type : String
deriving DecidableEq

/-- A response body: every endpoint answers either an
`{error, message}` envelope, the interaction reply envelope, or the raw
agent document. -/
inductive RespBody where
  | errObj (error : String) (message : String)
  | interactOk (agent : String) (reply : String) (timestamp : String)
  | agentData (doc : AgentDoc)
deriving DecidableEq

/-- An HTTP response: status code and JSON body. -/
structure HttpResponse where
  status : Nat
  body : RespBody
deriving DecidableEq

/-- Side effects a handler performed: document-store reads of the
`agents` collection, provider calls (with their full argument),
attempted analytics appends, and analytics appends that succeeded. -/
structure Effects where
  agentReads : Nat
  providerCalls : List CompletionRequest
  analyticsAttempts : List AnalyticsRecord
  analyticsWrites : List AnalyticsRecord
deriving DecidableEq

/-- The empty effect trace. -/
def noEffects : Effects := ⟨0, [], [], []⟩

/-- `GET /api/agent/:name`: look the agent up; 404 with the fixed
not-found envelope when absent, 200 with the raw document when
present. -/
def getAgentHandler (store : List (String × AgentDoc)) (name : String) :
    HttpResponse × Effects :=
  match getAgent store name with
  | none =>
      (⟨404, .errObj "Agent not found"
          ("The agent '" ++ name ++ "' does not exist in the database")⟩,
       { noEffects with agentReads := 1 })
  | some doc => (⟨200, .agentData doc⟩, { noEffects with agentReads := 1 })

/-- `POST /api/agent/:name/interact`: validate the body (400 on
failure, before any store or provider call), look the agent up (404
when absent), build the system prompt, call the provider (a fault is
caught and answered with the generic 500 envelope, skipping the
analytics write), substitute the fallback reply for an empty
completion, attempt the analytics append inside its own try/catch (a
failure is only logged), and answer 200 with the reply envelope. -/
def interactHandler (cfg : Config) (store : List (String × AgentDoc))
    (name : String) (body : ReqBody) (provider : ProviderResult)
    (analyticsOk : Bool) (now : String) : HttpResponse × Effects :=
  match interactSchemaValidate body with
  | .error e => (⟨400, .errObj "Validation error" e⟩, noEffects)
  | .ok message =>
      match getAgent store name with
      | none =>
          (⟨404, .errObj "Agent not found"
              ("The agent '" ++ name ++ "' does not exist in the database")⟩,
           { noEffects with agentReads := 1 })
      | some agentDetails =>
          let req := completionParams cfg (systemPrompt name agentDetails) message
          match provider with
          | .fault _ =>
              (⟨500, .errObj "Internal server error"
                  "An unexpected error occurred during agent interaction"⟩,
               { noEffects with agentReads := 1, providerCalls := [req] })
          | .ok content =>
              let agentReply := agentReplyOf content
              let rec0 : AnalyticsRecord :=
                ⟨name, message.length, agentReply.length, "interaction"⟩
              (⟨200, .interactOk name agentReply now⟩,
               { agentReads := 1
                 providerCalls := [req]
                 analyticsAttempts := [rec0]
                 analyticsWrites := if analyticsOk then [rec0] else [] })

/-! Concrete fixtures shared by the witnesses and counterexamples below. -/

/-- The README's example agent document for `"Aura"`. -/
def auraDoc : AgentDoc := ⟨some "Helpful and concise market analyst", some "", []⟩

/-- A one-agent store holding `"Aura"`. -/
def demoStore : List (String × AgentDoc) := [("Aura", auraDoc)]

/-- A run with every recognized environment variable unset. -/
def demoConfig : Config := ⟨none, none, none, none, none, none⟩

/-- The request body `{message: "hi"}`. -/
def hiBody : ReqBody := [("message", .str "hi")]

/-- The README's example user message. -/
def solanaQuestion : String := "What is the current market cap of Solana?"

/-- The request body carrying `solanaQuestion`. -/
def auraBody : ReqBody := [("message", .str solanaQuestion)]

/-! Helper lemmas. -/

/-- The reply substituted for the completion is never empty: a present,
non-empty completion is returned as is, and the fixed fallback sentence
replaces anything else. -/
theorem agentReplyOf_ne_empty (content : Option String) :
    agentReplyOf content ≠ "" := by
  cases content with
  | none => simp [agentReplyOf, jsOrString]
  | some t =>
      by_cases ht : t = "" <;> simp [agentReplyOf, jsOrString, ht]

/-- A singleton body `{message: s}` with `1 ≤ s.length ≤ 1000` passes
the schema and yields `s`. -/
theorem validate_singleton_ok (s : String) (h1 : 1 ≤ s.length)
    (h2 : s.length ≤ 1000) :
    interactSchemaValidate [("message", .str s)] = .ok s := by
  have h0 : ¬ s.length = 0 := by omega
  have hbig : ¬ s.length > 1000 := by omega
  simp [interactSchemaValidate, lookupKey, h0, hbig]

/-- The condition of C2 on a request body: the `message` field is
missing, is not a string, or has length 0 or greater than 1000. -/
def badMessageBody (body : ReqBody) : Bool :=
  match lookupKey body "message" with
  | none => true
  | some (.str s) => s.length = 0 || s.length > 1000
  | some _ => true

/-- A body whose `message` is missing, non-string, empty or over-long is
rejected by the schema. -/
theorem validate_fails_of_badMessage (body : ReqBody)
    (h : badMessageBody body = true) :
    ∃ e, interactSchemaValidate body = .error e := by
  unfold badMessageBody at h
  unfold interactSchemaValidate
  cases hl : lookupKey body "message" with
  | none => exact ⟨_, rfl⟩
  | some jv =>
      rw [hl] at h
      cases jv with
      | str s =>
          simp only [decide_eq_true_eq, Bool.or_eq_true] at h
          rcases h with h0 | hbig
          · exact ⟨"\x22message\x22 is not allowed to be empty",
              by simp [h0]⟩
          · have h0 : ¬ s.length = 0 := by omega
            exact ⟨"\x22message\x22 length must be less than or equal to 1000 characters long",
              by simp [h0, hbig]⟩
      | num n => exact ⟨_, rfl⟩
      | bool b => exact ⟨_, rfl⟩
      | null => exact ⟨_, rfl⟩

/-- A body containing a key other than `message` is rejected by the
schema (unknown keys are not allowed), whatever its `message` field
holds. -/
theorem validate_fails_of_unknown_key (body : ReqBody) (k : String)
    (v : JsonVal) (hmem : (k, v) ∈ body) (hk : k ≠ "message") :
    ∃ e, interactSchemaValidate body = .error e := by
  unfold interactSchemaValidate
  cases hl : lookupKey body "message" with
  | none => exact ⟨_, rfl⟩
  | some jv =>
      cases jv with
      | str s =>
          by_cases h0 : s.length = 0
          · exact ⟨"\x22message\x22 is not allowed to be empty",
              by simp [h0]⟩
          · by_cases hbig : s.length > 1000
            · exact ⟨"\x22message\x22 length must be less than or equal to 1000 characters long",
                by simp [h0, hbig]⟩
            · have hfind : (body.find? (fun p => !(p.1 == "message"))).isSome := by
                rw [List.find?_isSome]
                exact ⟨(k, v), hmem, by simp [hk]⟩
              obtain ⟨w, hw⟩ := Option.isSome_iff_exists.mp hfind
              exact ⟨"\x22" ++ w.1 ++ "\x22 is not allowed",
                by simp [h0, hbig, hw]⟩
      | num n => exact ⟨_, rfl⟩
      | bool b => exact ⟨_, rfl⟩
      | null => exact ⟨_, rfl⟩

/-! Claim theorems. -/

/-- C1: for every interaction request with a valid message and an
existing agent, if the provider call succeeds but the analytics write
throws, the HTTP response (status and body) is identical to the one
returned when the analytics write succeeds, and its status is 200: the
analytics failure never reaches the client-visible response path. -/
theorem C1_analytics_failure_isolated (cfg : Config)
    (store : List (String × AgentDoc)) (name : String) (body : ReqBody)
    (s : String) (doc : AgentDoc) (content : Option String) (now : String)
    (hval : interactSchemaValidate body = .ok s)
    (hdoc : getAgent store name = some doc) :
    (interactHandler cfg store name body (.ok content) false now).1 =
      (interactHandler cfg store name body (.ok content) true now).1 ∧
    (interactHandler cfg store name body (.ok content) false now).1.status
      = 200 := by
  simp [interactHandler, hval, hdoc]

/-- Witness for C1 at a concrete run: agent `"Aura"`, body
`{message: "hi"}`, a successful completion, the analytics write
failing. -/
theorem C1_witness :
    (interactHandler demoConfig demoStore "Aura" hiBody
        (.ok (some "Hello there.")) false "2025-01-15T12:34:56.789Z").1 =
      (interactHandler demoConfig demoStore "Aura" hiBody
        (.ok (some "Hello there.")) true "2025-01-15T12:34:56.789Z").1 ∧
    (interactHandler demoConfig demoStore "Aura" hiBody
        (.ok (some "Hello there.")) false "2025-01-15T12:34:56.789Z").1.status
      = 200 :=
  C1_analytics_failure_isolated demoConfig demoStore "Aura" hiBody "hi"
    auraDoc (some "Hello there.") "2025-01-15T12:34:56.789Z" rfl rfl

/-- C3: for every valid body `{message}` with length in `[1, 1000]` and
an agent present in the store, a successful provider call yields status
200 with body `{agent, reply, timestamp}` where `agent` is the path
name and `reply` is non-empty (the fixed fallback is substituted when
the provider returns no usable text). -/
theorem C3_success_envelope (cfg : Config)
    (store : List (String × AgentDoc)) (name : String) (s : String)
    (doc : AgentDoc) (content : Option String) (analyticsOk : Bool)
    (now : String) (h1 : 1 ≤ s.length) (h2 : s.length ≤ 1000)
    (hdoc : getAgent store name = some doc) :
    (interactHandler cfg store name [("message", .str s)] (.ok content)
        analyticsOk now).1 =
      ⟨200, .interactOk name (agentReplyOf content) now⟩ ∧
    agentReplyOf content ≠ "" := by
  refine ⟨?_, agentReplyOf_ne_empty content⟩
  simp [interactHandler, validate_singleton_ok s h1 h2, hdoc]

/-- Witness for C3 at a concrete run: agent `"Aura"`, message `"hi"`,
a provider that returns no usable text, so the fallback is served. -/
theorem C3_witness :
    (interactHandler demoConfig demoStore "Aura" [("message", .str "hi")]
        (.ok none) true "2025-01-15T12:34:56.789Z").1 =
      ⟨200, .interactOk "Aura" (agentReplyOf none)
        "2025-01-15T12:34:56.789Z"⟩ ∧
    agentReplyOf none ≠ "" :=
  C3_success_envelope demoConfig demoStore "Aura" "hi" auraDoc none true
    "2025-01-15T12:34:56.789Z" (by decide) (by decide) rfl

/-- C4: for every interaction request that passes validation and
resolves an existing agent, a provider fault is answered with status 500
and the fixed generic envelope — the raw fault message (universally
quantified here) never appears in the body — and no analytics append is
attempted or written. -/
theorem C4_provider_fault_500 (cfg : Config)
    (store : List (String × AgentDoc)) (name : String) (body : ReqBody)
    (s : String) (doc : AgentDoc) (faultMsg : String) (analyticsOk : Bool)
    (now : String) (hval : interactSchemaValidate body = .ok s)
    (hdoc : getAgent store name = some doc) :
    (interactHandler cfg store name body (.fault faultMsg) analyticsOk now).1
      = ⟨500, .errObj "Internal server error"
          "An unexpected error occurred during agent interaction"⟩ ∧
    (interactHandler cfg store name body (.fault faultMsg) analyticsOk
        now).2.analyticsAttempts = [] ∧
    (interactHandler cfg store name body (.fault faultMsg) analyticsOk
        now).2.analyticsWrites = [] := by
  simp [interactHandler, hval, hdoc, noEffects]

/-- Witness for C4 at a concrete run: agent `"Aura"`, body
`{message: "hi"}`, the provider rejecting with `"boom"`. -/
theorem C4_witness :
    (interactHandler demoConfig demoStore "Aura" hiBody (.fault "boom")
        true "2025-01-15T12:34:56.789Z").1 =
      ⟨500, .errObj "Internal server error"
        "An unexpected error occurred during agent interaction"⟩ ∧
    (interactHandler demoConfig demoStore "Aura" hiBody (.fault "boom")
        true "2025-01-15T12:34:56.789Z").2.analyticsAttempts = [] ∧
    (interactHandler demoConfig demoStore "Aura" hiBody (.fault "boom")
        true "2025-01-15T12:34:56.789Z").2.analyticsWrites = [] :=
  C4_provider_fault_500 demoConfig demoStore "Aura" hiBody "hi" auraDoc
    "boom" true "2025-01-15T12:34:56.789Z" rfl rfl

/-- C10: for every successful interaction, the analytics record written
is exactly one record whose `messageLength` is the validated message's
length, whose `responseLength` is the length of the reply placed in the
200 body (fallback included, since `content` is arbitrary), whose
`agent` is the path name, and whose `type` is `"interaction"`. -/
theorem C10_analytics_record_fields (cfg : Config)
    (store : List (String × AgentDoc)) (name : String) (body : ReqBody)
    (s : String) (doc : AgentDoc) (content : Option String) (now : String)
    (hval : interactSchemaValidate body = .ok s)
    (hdoc : getAgent store name = some doc) :
    (interactHandler cfg store name body (.ok content) true
        now).2.analyticsWrites =
      [⟨name, s.length, (agentReplyOf content).length, "interaction"⟩] ∧
    (interactHandler cfg store name body (.ok content) true now).1.body =
      .interactOk name (agentReplyOf content) now := by
  simp [interactHandler, hval, hdoc]

/-- Witness for C10 at a concrete run: agent `"Aura"`, message `"hi"`,
an empty completion, so the recorded `responseLength` is the fallback
sentence's length. -/
theorem C10_witness :
    (interactHandler demoConfig demoStore "Aura" hiBody (.ok (some ""))
        true "2025-01-15T12:34:56.789Z").2.analyticsWrites =
      [⟨"Aura", ("hi").length, (agentReplyOf (some "")).length,
        "interaction"⟩] ∧
    (interactHandler demoConfig demoStore "Aura" hiBody (.ok (some ""))
        true "2025-01-15T12:34:56.789Z").1.body =
      .interactOk "Aura" (agentReplyOf (some ""))
        "2025-01-15T12:34:56.789Z" :=
  C10_analytics_record_fields demoConfig demoStore "Aura" hiBody "hi"
    auraDoc (some "") "2025-01-15T12:34:56.789Z" rfl rfl

/-- C2: for every request body whose `message` field is missing, is not
a string, or has length 0 or greater than 1000, the interact endpoint
answers 400 with the `{error: "Validation error", message}` envelope and
performs no side effect at all: the document store is not read, the
provider is not called, and no analytics append is attempted. -/
theorem C2_validation_rejects_before_side_effects (cfg : Config)
    (store : List (String × AgentDoc)) (name : String) (body : ReqBody)
    (provider : ProviderResult) (analyticsOk : Bool) (now : String)
    (h : badMessageBody body = true) :
    (∃ m, (interactHandler cfg store name body provider analyticsOk now).1
        = ⟨400, .errObj "Validation error" m⟩) ∧
    (interactHandler cfg store name body provider analyticsOk now).2
      = noEffects := by
  obtain ⟨e, he⟩ := validate_fails_of_badMessage body h
  exact ⟨⟨e, by simp [interactHandler, he]⟩, by simp [interactHandler, he]⟩

/-- Witness for C2 at a concrete run: an empty body (the `message`
field is missing). -/
theorem C2_witness :
    (∃ m, (interactHandler demoConfig demoStore "Aura" [] (.ok (some "r"))
        true "2025-01-15T12:34:56.789Z").1 =
      ⟨400, .errObj "Validation error" m⟩) ∧
    (interactHandler demoConfig demoStore "Aura" [] (.ok (some "r")) true
        "2025-01-15T12:34:56.789Z").2 = noEffects :=
  C2_validation_rejects_before_side_effects demoConfig demoStore "Aura" []
    (.ok (some "r")) true "2025-01-15T12:34:56.789Z" rfl

/-- C5: the constructed system prompt is a pure function of the triple
`(name, personality, description)` — two documents agreeing on those
two fields (whatever their other metadata) yield the same prompt for the
same name — a missing or empty `personality` interpolates the literal
fallback `"neutral and general."`, and a missing `description`
interpolates the empty string. -/
theorem C5_prompt_pure_with_fallbacks :
    (∀ (n : String) (d₁ d₂ : AgentDoc), d₁.personality = d₂.personality →
        d₁.description = d₂.description →
        systemPrompt n d₁ = systemPrompt n d₂) ∧
    (∀ (n : String) (d : AgentDoc),
        d.personality = none ∨ d.personality = some "" →
        systemPrompt n d =
          systemPrompt n { d with personality := some "neutral and general." }) ∧
    (∀ (n : String) (d : AgentDoc), d.description = none →
        systemPrompt n d = systemPrompt n { d with description := some "" }) := by
  refine ⟨?_, ?_, ?_⟩
  · intro n d₁ d₂ hp hd
    simp [systemPrompt, hp, hd]
  · intro n d hp
    rcases hp with hp | hp <;> simp [systemPrompt, hp, jsOrString]
  · intro n d hd
    simp [systemPrompt, hd, jsOrString]

/-- Witness for C5 at a concrete input: a document with no
`personality` field produces the same prompt as one carrying the
literal fallback. -/
theorem C5_witness :
    systemPrompt "Aura" ⟨none, some "A market analyst.", []⟩ =
      systemPrompt "Aura"
        ⟨some "neutral and general.", some "A market analyst.", []⟩ :=
  C5_prompt_pure_with_fallbacks.2.1 "Aura"
    ⟨none, some "A market analyst.", []⟩ (Or.inl rfl)

/-- C6: for every agent name absent from the store, the metadata
endpoint and the interact endpoint (with a body the schema accepts) both
answer 404 with `{error: "Agent not found", message: "The agent '<name>'
does not exist in the database"}`. -/
theorem C6_not_found_both_endpoints (cfg : Config)
    (store : List (String × AgentDoc)) (name : String) (body : ReqBody)
    (s : String) (provider : ProviderResult) (analyticsOk : Bool)
    (now : String) (habs : getAgent store name = none)
    (hval : interactSchemaValidate body = .ok s) :
    (getAgentHandler store name).1 =
      ⟨404, .errObj "Agent not found"
        ("The agent '" ++ name ++ "' does not exist in the database")⟩ ∧
    (interactHandler cfg store name body provider analyticsOk now).1 =
      ⟨404, .errObj "Agent not found"
        ("The agent '" ++ name ++ "' does not exist in the database")⟩ := by
  constructor
  · simp [getAgentHandler, habs]
  · simp [interactHandler, hval, habs]

/-- Witness for C6 at the claim's concrete scenario:
`POST /api/agent/unknown-agent/interact` with `{message: "hi"}` against
the demo store (which only holds `"Aura"`), and the matching `GET`. -/
theorem C6_witness :
    (getAgentHandler demoStore "unknown-agent").1 =
      ⟨404, .errObj "Agent not found"
        "The agent 'unknown-agent' does not exist in the database"⟩ ∧
    (interactHandler demoConfig demoStore "unknown-agent" hiBody
        (.ok (some "r")) true "2025-01-15T12:34:56.789Z").1 =
      ⟨404, .errObj "Agent not found"
        "The agent 'unknown-agent' does not exist in the database"⟩ :=
  C6_not_found_both_endpoints demoConfig demoStore "unknown-agent" hiBody
    "hi" (.ok (some "r")) true "2025-01-15T12:34:56.789Z" rfl rfl

/-- C9: for every request body containing any key other than `message`
— even when `message` itself is present and valid — the interact
endpoint answers 400 with the `{error: "Validation error", message}`
envelope, because the schema admits only the `message` key. -/
theorem C9_unknown_key_rejected (cfg : Config)
    (store : List (String × AgentDoc)) (name : String) (body : ReqBody)
    (provider : ProviderResult) (analyticsOk : Bool) (now : String)
    (k : String) (v : JsonVal) (hmem : (k, v) ∈ body)
    (hk : k ≠ "message") :
    ∃ m, (interactHandler cfg store name body provider analyticsOk now).1
      = ⟨400, .errObj "Validation error" m⟩ := by
  obtain ⟨e, he⟩ := validate_fails_of_unknown_key body k v hmem hk
  exact ⟨e, by simp [interactHandler, he]⟩

/-- Witness for C9 at a concrete run: body
`{message: "hi", extra: null}` with a valid `message` of length 2. -/
theorem C9_witness :
    ∃ m, (interactHandler demoConfig demoStore "Aura"
        [("message", .str "hi"), ("extra", .null)] (.ok (some "r")) true
        "2025-01-15T12:34:56.789Z").1 =
      ⟨400, .errObj "Validation error" m⟩ :=
  C9_unknown_key_rejected demoConfig demoStore "Aura"
    [("message", .str "hi"), ("extra", .null)] (.ok (some "r")) true
    "2025-01-15T12:34:56.789Z" "extra" .null (by decide) (by decide)

/-- A run with every recognized environment variable set. -/
def cfgA : Config :=
  ⟨some "gpt-4", some "sk-test", some "8080", some "https://app.example",
    some "debug", some "production"⟩

/-- C7 counterexample: two runs whose configurations differ in every
recognized environment variable still pass identical `max_tokens` and
`temperature` values to the provider, so no configuration point
determines those two parameters — only the model identifier is
configurable. -/
theorem C7_counterexample :
    cfgA ≠ demoConfig ∧
    (completionParams cfgA "p" "m").maxTokens =
      (completionParams demoConfig "p" "m").maxTokens ∧
    (completionParams cfgA "p" "m").temperature =
      (completionParams demoConfig "p" "m").temperature ∧
    (completionParams cfgA "p" "m").maxTokens = 500 :=
  ⟨by decide, rfl, rfl, rfl⟩

/-- C7 (amended): the completion call the interact handler makes uses a
model identifier taken from runtime configuration when it is set to a
non-empty string; the default `"gpt-3.5-turbo"` is used when the
variable is absent or empty (`||` treats the empty string as falsy),
while the maximum output tokens and the sampling temperature are the
fixed constants 500 and 0.7. -/
theorem C7_amended_model_configurable_limits_fixed (cfg : Config)
    (store : List (String × AgentDoc)) (name : String) (body : ReqBody)
    (s : String) (doc : AgentDoc) (content : Option String)
    (analyticsOk : Bool) (now : String)
    (hval : interactSchemaValidate body = .ok s)
    (hdoc : getAgent store name = some doc) :
    (interactHandler cfg store name body (.ok content) analyticsOk
        now).2.providerCalls =
      [completionParams cfg (systemPrompt name doc) s] ∧
    (completionParams cfg (systemPrompt name doc) s).maxTokens = 500 ∧
    (completionParams cfg (systemPrompt name doc) s).temperature
      = (7 : ℚ) / 10 ∧
    (cfg.OPENAI_MODEL = none ∨ cfg.OPENAI_MODEL = some "" →
      (completionParams cfg (systemPrompt name doc) s).model
        = "gpt-3.5-turbo") ∧
    (∀ m, cfg.OPENAI_MODEL = some m → m ≠ "" →
      (completionParams cfg (systemPrompt name doc) s).model = m) := by
  refine ⟨by simp [interactHandler, hval, hdoc], rfl, rfl, ?_, ?_⟩
  · intro h
    rcases h with h | h <;> simp [completionParams, jsOrString, h]
  · intro m h hm
    simp [completionParams, jsOrString, h, hm]

/-- Witness for the amended C7 at a concrete run: every environment
variable set, so the configured model `"gpt-4"` is used, and the token
and temperature constants still appear in the recorded call. -/
theorem C7_amended_witness :
    (interactHandler cfgA demoStore "Aura" hiBody (.ok (some "r")) true
        "2025-01-15T12:34:56.789Z").2.providerCalls =
      [completionParams cfgA (systemPrompt "Aura" auraDoc) "hi"] ∧
    (completionParams cfgA (systemPrompt "Aura" auraDoc) "hi").model
      = "gpt-4" ∧
    (completionParams cfgA (systemPrompt "Aura" auraDoc) "hi").maxTokens
      = 500 :=
  ⟨(C7_amended_model_configurable_limits_fixed cfgA demoStore "Aura"
      hiBody "hi" auraDoc (some "r") true "2025-01-15T12:34:56.789Z" rfl
      rfl).1,
   (C7_amended_model_configurable_limits_fixed cfgA demoStore "Aura"
      hiBody "hi" auraDoc (some "r") true "2025-01-15T12:34:56.789Z" rfl
      rfl).2.2.2.2 "gpt-4" rfl (by decide),
   (C7_amended_model_configurable_limits_fixed cfgA demoStore "Aura"
      hiBody "hi" auraDoc (some "r") true "2025-01-15T12:34:56.789Z" rfl
      rfl).2.1⟩

/-- C8 counterexample: in the claim's concrete scenario the single
analytics record written carries `messageLength` 41 — the message
`"What is the current market cap of Solana?"` has 41 characters — not
42. -/
theorem C8_counterexample :
    ((interactHandler demoConfig demoStore "Aura" auraBody
        (.ok (some "It is big.")) true
        "2025-01-15T12:34:56.789Z").2.analyticsWrites.map
      AnalyticsRecord.messageLength) = [41] ∧ (41 : Nat) ≠ 42 :=
  ⟨rfl, by decide⟩

/-- C8 (amended): agent `"Aura"` stored with personality `"Helpful and
concise market analyst"` and description `""`, message `"What is the
current market cap of Solana?"`, a successful completion: the response
is 200 with body `{agent: "Aura", reply: <the non-empty completion>,
timestamp: <the ISO instant>}` and exactly one analytics record is
written, with `messageLength` 41. -/
theorem C8_concrete_scenario :
    (interactHandler demoConfig demoStore "Aura" auraBody
        (.ok (some "It is big.")) true "2025-01-15T12:34:56.789Z").1 =
      ⟨200, .interactOk "Aura" "It is big." "2025-01-15T12:34:56.789Z"⟩ ∧
    (interactHandler demoConfig demoStore "Aura" auraBody
        (.ok (some "It is big.")) true
        "2025-01-15T12:34:56.789Z").2.analyticsWrites =
      [⟨"Aura", 41, 10, "interaction"⟩] :=
  ⟨rfl, rfl⟩

end AptixApi
